import Mathlib

/-!
# Verification of `sw_watchdog::SimpleWatchdog` (simple_watchdog.cpp)

Shallow embedding of the watchdog node from
`src/sw_watchdog/src/simple_watchdog.cpp`, together with definitions taken
from the design specification where the specification describes intended
semantics (those definitions are prefixed `spec_`), and a model of the
externally supplied heartbeat cache (`message_filters::Cache`), whose
implementation is not part of this repository.

Conventions of the embedding:
* `header.stamp.sec` (an `int32_t`) is an `Int`; `header.stamp.nanosec`
  (a `uint32_t`) is a `Nat`; `checkpoint_id` is an `Int` (the C++ code keys a
  `std::map<int, …>` with it).
* The current time `now` (the code calls `now.seconds()`, a `double`) is
  modelled in whole seconds as an `Int`.
* C++ undefined behaviour in the translated code (converting the NaN produced
  by `0.0 / 0` to `uint64_t`, converting a negative `double` to `uint64_t`,
  dereferencing a null publisher) is represented by explicit error values, and
  a thrown `std::out_of_range` from `std::map::at` is likewise explicit.
-/

namespace SwWatchdog

/-- One heartbeat message (`sw_watchdog_msgs::msg::Heartbeat`): a checkpoint
id plus a `builtin_interfaces/Time` stamp (`sec`, `nanosec`). -/
structure Heartbeat where
  checkpoint_id : Int
  stamp_sec : Int
  stamp_nanosec : Nat
deriving Repr, DecidableEq, Inhabited

/-- Timestamp of a heartbeat in nanoseconds. -/
def Heartbeat.stampNs (h : Heartbeat) : Int :=
  h.stamp_sec * 1000000000 + (h.stamp_nanosec : Int)

/-- Insert an integer into a sorted list, keeping it sorted ascending
(models the key ordering of `std::map<int, _>`). -/
def insertSorted (x : Int) : List Int → List Int
  | [] => [x]
  | y :: ys => if x ≤ y then x :: y :: ys else y :: insertSorted x ys

/-- Sort a list of integers ascending. -/
def sortInts (l : List Int) : List Int := l.foldr insertSorted []

/-- The key set of `node_id_list` (`std::map<int, std::vector<Heartbeat>>`,
lines 115-125): the distinct checkpoint ids occurring in the cache snapshot,
in the map's ascending key order. -/
def cacheIds (snap : List Heartbeat) : List Int :=
  sortInts ((snap.map (·.checkpoint_id)).dedup)

/-- The value `node_id_list.at(id)` (lines 115-125): the heartbeats of one
checkpoint id in arrival (push_back) order. -/
def msgsOf (snap : List Heartbeat) (id : Int) : List Heartbeat :=
  snap.filter (fun h => h.checkpoint_id == id)

/-- The vector `intervall_between_msgs` built at lines 128-137 for one
entity's message vector `v`: for each `i` from 1 to `v.size()-1` the code
pushes
`(v[i].header.stamp.sec - v[i].header.stamp.sec) * 1000000000
 + (v[i-1].header.stamp.nanosec - v[i-1].header.stamp.nanosec)`,
i.e. it subtracts each timestamp field from itself. -/
def intervall_between_msgs (v : List Heartbeat) : List Nat :=
  (List.range (v.length - 1)).map (fun j =>
    (((v.getD (j + 1) default).stamp_sec - (v.getD (j + 1) default).stamp_sec)
        * 1000000000
      + (((v.getD j default).stamp_nanosec : Int)
        - ((v.getD j default).stamp_nanosec : Int))).toNat)

/-- The average at line 139:
`std::accumulate(begin, end, 0.0) / intervall_between_msgs.size()` stored
into a `uint64_t`.  When the vector is empty this computes `0.0 / 0`, i.e.
NaN, and converting NaN to `uint64_t` is undefined behaviour: that case is
`none`. -/
def avg_intervall_between_msgs (ivs : List Nat) : Option Nat :=
  if ivs.length = 0 then none
  else some (ivs.sum / ivs.length)

/-- The map `node_avg_time_inervall_map` built at lines 126-141: one entry
per checkpoint id, in key order; `none` if any entity's average hit the
undefined `0.0 / 0` conversion (which happens exactly when some entity has a
single cached message). -/
def node_avg_time_inervall_map (snap : List Heartbeat) :
    Option (List (Int × Nat)) :=
  (cacheIds snap).mapM (fun id =>
    (avg_intervall_between_msgs (intervall_between_msgs (msgsOf snap id))).map
      (fun a => (id, a)))

/-- `diff_last_msg_to_now` computed at lines 145-147:
`(now.seconds() - last.sec) * 1000000000 + (now.seconds() - last.sec)`
for the entity's most recent cached message `last` (the nanosecond field is
ignored by the code). -/
def diff_last_msg_to_now (now : Int) (last : Heartbeat) : Int :=
  (now - last.stamp_sec) * 1000000000 + (now - last.stamp_sec)

/-- Outcome of `check_messages_in_cache` (lines 113-155). -/
inductive CheckResult where
  /-- Undefined behaviour was reached (NaN or a negative `double` converted
  to `uint64_t`). -/
  | ub : CheckResult
  /-- `node_id_list.at(result.first)` threw `std::out_of_range`. -/
  | out_of_range : CheckResult
  /-- Normal return: the returned `bool` and the value written through
  `lost_message`. -/
  | ok (found : Bool) (lost : Heartbeat) : CheckResult
deriving Repr, DecidableEq

/-- `check_messages_in_cache` (lines 113-155), as a function of the cache
snapshot (`getInterval(getOldestTime(), getLatestTime())` returns every
cached message, oldest first) and of `now`.

The selection loop at lines 144-152 initialises
`result = {-1, 10000000000}` and, whenever `diff_last_msg_to_now <
result.second`, assigns a *freshly declared local* `result` that shadows the
outer one, so the outer `result` is never updated; the loop's only observable
effect is the `uint64_t` conversion of each `diff_last_msg_to_now`, which is
undefined when the value is negative.  Afterwards the code executes
`*lost_message = node_id_list.at(result.first).back()` — i.e. `at(-1)`,
which throws unless a checkpoint id `-1` is present — and returns `false`
unconditionally. -/
def check_messages_in_cache (snap : List Heartbeat) (now : Int) : CheckResult :=
  match node_avg_time_inervall_map snap with
  | none => .ub
  | some avgMap =>
    if avgMap.all (fun p =>
        0 ≤ diff_last_msg_to_now now ((msgsOf snap p.1).getLastD default)) then
      if (cacheIds snap).contains (-1) then
        .ok false ((msgsOf snap (-1)).getLastD default)
      else
        .out_of_range
    else
      .ub

/-- State of the failure publisher `failure_pub_`: whether it was allocated
at `on_configure` (it is `nullptr` unless `--publish` set `enable_pub_`),
and whether the lifecycle publisher is activated. -/
structure SinkState where
  allocated : Bool
  activated : Bool
deriving Repr, DecidableEq

/-- Outcome of `publish_failure` (lines 158-181). -/
inductive PublishOutcome where
  /-- `failure_pub_->publish(...)` executed with `failure_pub_ == nullptr`:
  undefined behaviour. -/
  | null_deref : PublishOutcome
  /-- The activated lifecycle publisher emitted
  `Status{stamp := now, missed_number := entity}`. -/
  | emitted (entity : Int) (reported_at : Int) : PublishOutcome
  /-- The lifecycle publisher was allocated but not activated: per its
  documented semantics (and the comment at lines 178-179) the message is not
  published. -/
  | suppressed : PublishOutcome
deriving Repr, DecidableEq

/-- `publish_failure` (lines 158-181): builds
`Status{header.stamp := now, missed_number := lost.checkpoint_id}` and calls
`failure_pub_->publish` unconditionally.  The gating of an inactive
lifecycle publisher ("Only if the publisher is in an active state, the
message transfer is enabled and the message actually published", lines
178-180) is modelled from that comment and the spec, since
`rclcpp_lifecycle::LifecyclePublisher` is not part of this repository. -/
def publish_failure (sink : SinkState) (lost : Heartbeat) (now : Int) :
    PublishOutcome :=
  if !sink.allocated then .null_deref
  else if sink.activated then .emitted lost.checkpoint_id now
  else .suppressed

/-- `rclcpp::QOSLivelinessChangedInfo`: the aggregate liveliness counts and
deltas delivered to the liveliness callback. -/
structure QOSLivelinessChangedInfo where
  alive_count : Int
  not_alive_count : Int
  alive_count_change : Int
  not_alive_count_change : Int
deriving Repr, DecidableEq

/-- Outcome of one invocation of the liveliness callback installed at
lines 192-206. -/
inductive CallbackOutcome where
  /-- `alive_count_change > 0`: the event is dropped without diagnosis. -/
  | dropped : CallbackOutcome
  /-- `check_messages_in_cache` hit undefined behaviour. -/
  | crashed_ub : CallbackOutcome
  /-- `check_messages_in_cache` threw `std::out_of_range`, which escapes the
  callback. -/
  | crashed_out_of_range : CallbackOutcome
  /-- `check_messages_in_cache` returned `true`, so `publish_failure` was not
  called. -/
  | no_publish : CallbackOutcome
  /-- `publish_failure` was called; its outcome is recorded. -/
  | publish (p : PublishOutcome) : CallbackOutcome
deriving Repr, DecidableEq

/-- The liveliness callback installed by `on_configure` (lines 192-206): if
`event.alive_count_change <= 0` it runs `check_messages_in_cache` and, when
that returns `false`, calls `publish_failure` on the diagnosed message;
otherwise the event is dropped. -/
def liveliness_callback (event : QOSLivelinessChangedInfo)
    (snap : List Heartbeat) (now : Int) (sink : SinkState) : CallbackOutcome :=
  if event.alive_count_change ≤ 0 then
    match check_messages_in_cache snap now with
    | .ub => .crashed_ub
    | .out_of_range => .crashed_out_of_range
    | .ok found lost =>
      if !found then .publish (publish_failure sink lost now) else .no_publish
  else
    .dropped

/-- Outcome of the `SimpleWatchdog` constructor (lines 71-105). -/
inductive StartupOutcome where
  /-- `std::exit(status)` was called; `usagePrinted` records whether
  `print_usage()` ran first. -/
  | exited (usagePrinted : Bool) (status : Nat) : StartupOutcome
  /-- `std::stoul(args[1])` threw `std::invalid_argument`, which escapes the
  constructor uncaught (no usage message is printed). -/
  | uncaught : StartupOutcome
  /-- Construction completed with the parsed lease (milliseconds) and the
  `autostart_` / `enable_pub_` flags. -/
  | constructed (lease_ms : Nat) (autostart : Bool) (enable_pub : Bool) :
      StartupOutcome
deriving Repr, DecidableEq

/-- `std::stoul`: succeeds on a leading run of decimal digits, throws
`std::invalid_argument` (here `none`) when no conversion can be performed. -/
def stoul (s : String) : Option Nat :=
  let ds := s.toList.takeWhile Char.isDigit
  if ds.isEmpty then none
  else some (ds.foldl (fun n c => 10 * n + (c.toNat - 48)) 0)

/-- The argument handling of the `SimpleWatchdog` constructor (lines 75-99):
if fewer than two arguments are given or `-h` is present, it prints the
usage message and calls `std::exit(0)`; otherwise it parses
`args[1]` with `std::stoul` (throwing on a non-numeric lease) and records
the `--activate` and `--publish` flags. -/
def simple_watchdog_ctor (args : List String) : StartupOutcome :=
  if args.length < 2 ∨ args.contains "-h" then
    .exited true 0
  else
    match stoul (args.getD 1 "") with
    | none => .uncaught
    | some lease =>
      .constructed lease (args.contains "--activate") (args.contains "--publish")

/-- The fields of a constructed `SimpleWatchdog` that the diagnosis can see:
configuration plus the heartbeat cache contents. -/
structure SimpleWatchdogNode where
  lease_duration : Nat
  autostart : Bool
  enable_pub : Bool
  topic_name : String
  cache : List Heartbeat
deriving Repr, DecidableEq

/-- `check_messages_in_cache` as invoked on a node: it reads only the
heartbeat cache (and the clock value passed as `now`). -/
def node_check (w : SimpleWatchdogNode) (now : Int) : CheckResult :=
  check_messages_in_cache w.cache now

/-- Modelled from the spec: the heartbeat history buffer is
`message_filters::Cache`, configured with capacity 25 at line 89 but
implemented outside this repository; per the spec (§4.1), `record` appends
the new heartbeat and, when the size would exceed the capacity, evicts the
oldest record (FIFO). -/
def record (capacity : Nat) (hist : List Heartbeat) (h : Heartbeat) :
    List Heartbeat :=
  let appended := hist ++ [h]
  if capacity < appended.length then appended.tail else appended

/-- Repeated `record` calls starting from a given history. -/
def recordAll (capacity : Nat) (hist : List Heartbeat) (hs : List Heartbeat) :
    List Heartbeat :=
  hs.foldl (record capacity) hist

/-- Modelled from the spec (§4.2 step 2): the mean inter-arrival interval of
a list of timestamps (nanoseconds) — the average of consecutive timestamp
differences; undefined (`none`) for fewer than two timestamps. -/
def spec_mean_interval (ts : List Int) : Option Int :=
  match ts with
  | [] => none
  | [_] => none
  | t :: rest =>
    some (((t :: rest).zipWith (fun a b => b - a) rest).sum
      / ((t :: rest).length - 1 : Nat))

/-- A diagnosis candidate for the spec-side algorithm: checkpoint id, rank
class (`0` = known cadence, `1` = unknown cadence, ranked after all known
ones), ranking value (`overdue - mean_interval` resp. `overdue`), and the
last-seen timestamp in nanoseconds. -/
structure SpecCand where
  id : Int
  cls : Nat
  val : Int
  last_seen : Int
deriving Repr, DecidableEq

/-- Modelled from the spec (§4.2 steps 4-5): `a` is strictly preferred to
`b` when it has a lower rank class, or a larger ranking value within the
class, or — on a tied value — a smaller checkpoint id. -/
def spec_better (a b : SpecCand) : Bool :=
  a.cls < b.cls ∨ (a.cls = b.cls ∧ b.val < a.val)
    ∨ (a.cls = b.cls ∧ a.val = b.val ∧ a.id < b.id)

/-- Modelled from the spec (§4.2): the candidate for one entity, given `now`
and its timestamps in arrival order (nanoseconds). -/
def spec_cand (now : Int) (id : Int) (ts : List Int) : SpecCand :=
  let last := ts.getLastD 0
  match spec_mean_interval ts with
  | some m => ⟨id, 0, (now - last) - m, last⟩
  | none => ⟨id, 1, now - last, last⟩

/-- Modelled from the spec (§4.2): diagnose the snapshot at time `now`
(both in nanoseconds): pick the best candidate under `spec_better`; fail
(`none`) when the snapshot is empty or no entity has an established cadence
(step 6).  Returns the winning checkpoint id and its last-seen timestamp. -/
def spec_diagnose (snap : List Heartbeat) (now : Int) : Option (Int × Int) :=
  let cands := (cacheIds snap).map (fun id =>
    spec_cand now id ((msgsOf snap id).map Heartbeat.stampNs))
  match cands with
  | [] => none
  | c :: cs =>
    let best := cs.foldl (fun acc x => if spec_better x acc then x else acc) c
    if best.cls = 0 then some (best.id, best.last_seen) else none

theorem record_length_le (cap : Nat) (hist : List Heartbeat) (h : Heartbeat)
    (hl : hist.length ≤ cap) : (record cap hist h).length ≤ cap := by
  simp only [record]
  split
  · simp only [List.length_tail, List.length_append, List.length_singleton]
    omega
  · next hc =>
    simp only [List.length_append, List.length_singleton] at hc ⊢
    omega

theorem record_eq_drop (cap : Nat) (hist : List Heartbeat) (h : Heartbeat)
    (hl : hist.length ≤ cap) :
    record cap hist h = (hist ++ [h]).drop (hist.length + 1 - cap) := by
  simp only [record]
  split
  · next hc =>
    have h1 : hist.length + 1 - cap = 1 := by
      simp only [List.length_append, List.length_singleton] at hc
      omega
    rw [h1, List.drop_one]
  · next hc =>
    have h0 : hist.length + 1 - cap = 0 := by
      simp only [List.length_append, List.length_singleton] at hc
      omega
    rw [h0, List.drop_zero]

theorem drop_append_left {α : Type} (l₁ l₂ : List α) (n : Nat)
    (h : n ≤ l₁.length) : l₁.drop n ++ l₂ = (l₁ ++ l₂).drop n := by
  rw [List.drop_append_eq_append_drop, show n - l₁.length = 0 by omega,
    List.drop_zero]

theorem recordAll_eq_drop (cap : Nat) (hs hist : List Heartbeat)
    (hl : hist.length ≤ cap) :
    recordAll cap hist hs = (hist ++ hs).drop (hist.length + hs.length - cap) := by
  induction hs generalizing hist with
  | nil =>
    simp only [recordAll, List.foldl_nil, List.append_nil, List.length_nil]
    rw [show hist.length + 0 - cap = 0 by omega, List.drop_zero]
  | cons h hs ih =>
    have hrl := record_length_le cap hist h hl
    have hrec := record_eq_drop cap hist h hl
    have step : recordAll cap hist (h :: hs)
        = recordAll cap (record cap hist h) hs := by
      simp [recordAll]
    rw [step, ih (record cap hist h) hrl]
    have hlen : (record cap hist h).length
        = hist.length + 1 - (hist.length + 1 - cap) := by
      rw [hrec, List.length_drop]
      simp
    rw [hlen, hrec]
    rw [drop_append_left (hist ++ [h]) hs (hist.length + 1 - cap)
      (by simp only [List.length_append, List.length_singleton]; omega)]
    rw [List.drop_drop]
    rw [show (hist ++ [h]) ++ hs = hist ++ h :: hs by simp]
    congr 1
    simp only [List.length_cons]
    omega

/-- C5: for every sequence of `record()` calls, the history holds at most
25 records, and the resulting snapshot is exactly the last 25 inserted
records in arrival order (FIFO eviction of the oldest). -/
theorem C5_capacity_fifo (hs : List Heartbeat) :
    (recordAll 25 [] hs).length ≤ 25 ∧
      recordAll 25 [] hs = hs.drop (hs.length - 25) := by
  have h := recordAll_eq_drop 25 hs [] (by simp)
  simp only [List.nil_append, List.length_nil, Nat.zero_add] at h
  refine ⟨?_, h⟩
  rw [h]
  simp only [List.length_drop]
  omega

/-- C1: the claim says `check_messages_in_cache` selects the entity
maximising `overdue - mean_interval` (ties to the smaller id) and returns
its last heartbeat.  On the snapshot {entity 1 at 0s and 1s, entity 2 at 0s
and 8s} with `now = 9s`, the spec-side algorithm selects entity 1 (score
`8s - 1s` beats `1s - 8s`), but the code throws `std::out_of_range`: its
selection loop only writes a shadowed local `result`, so the lookup key
stays `-1`. -/
theorem C1_selection_discarded :
    check_messages_in_cache [⟨1, 0, 0⟩, ⟨1, 1, 0⟩, ⟨2, 0, 0⟩, ⟨2, 8, 0⟩] 9
        = CheckResult.out_of_range ∧
      spec_diagnose [⟨1, 0, 0⟩, ⟨1, 1, 0⟩, ⟨2, 0, 0⟩, ⟨2, 8, 0⟩] 9000000000
        = some (1, 1000000000) := by
  constructor
  · rfl
  · rfl

/-- C2: the claim says a snapshot containing only single-heartbeat entities
makes diagnosis fail with "no evidence" and the caller suppress the
notification.  On the snapshot {entity 1 at 0s, entity 2 at 5s} the code
instead computes `0.0 / 0` (NaN) for each entity and hits undefined
behaviour converting it to `uint64_t`; the liveliness callback neither
reports a defined failure nor suppresses cleanly. -/
theorem C2_no_evidence_not_handled :
    check_messages_in_cache [⟨1, 0, 0⟩, ⟨2, 5, 0⟩] 9 = CheckResult.ub ∧
      liveliness_callback ⟨1, 1, -1, 1⟩ [⟨1, 0, 0⟩, ⟨2, 5, 0⟩] 9 ⟨true, true⟩
        = CallbackOutcome.crashed_ub := by
  constructor
  · rfl
  · rfl

/-- C3: the claim says the computed mean inter-arrival interval equals the
arithmetic mean of consecutive timestamp differences.  The code subtracts
each timestamp field from itself, so every computed interval is 0: for
entity 5 with heartbeats at 0s and 1s the code's average is 0 while the
true mean interval is 1000000000 ns. -/
theorem C3_intervals_always_zero :
    (∀ v : List Heartbeat,
      intervall_between_msgs v = List.replicate (v.length - 1) 0) ∧
    avg_intervall_between_msgs
        (intervall_between_msgs (msgsOf [⟨5, 0, 0⟩, ⟨5, 1, 0⟩] 5)) = some 0 ∧
    spec_mean_interval ((msgsOf [⟨5, 0, 0⟩, ⟨5, 1, 0⟩] 5).map Heartbeat.stampNs)
        = some 1000000000 := by
  refine ⟨?_, rfl, rfl⟩
  intro v
  simp [intervall_between_msgs]

/-- C4: the claim says an entity with exactly one recorded heartbeat is
treated as having no established cadence, with no division by zero.  For
the snapshot {entity 3 at 100s} the code's interval vector is empty, the
average is `0.0 / 0` whose `uint64_t` conversion is undefined behaviour,
and the diagnosis does not produce a well-defined result. -/
theorem C4_single_heartbeat_divides_by_zero :
    intervall_between_msgs (msgsOf [⟨3, 100, 0⟩] 3) = [] ∧
      avg_intervall_between_msgs [] = none ∧
      check_messages_in_cache [⟨3, 100, 0⟩] 1000 = CheckResult.ub := by
  exact ⟨rfl, rfl, rfl⟩

/-- C6: the claim says diagnosis against an empty history terminates with a
defined failure, never a crash.  On the empty snapshot the code reaches
`node_id_list.at(-1)` on an empty map, which throws `std::out_of_range`;
the exception escapes the liveliness callback. -/
theorem C6_empty_history_throws :
    check_messages_in_cache [] 0 = CheckResult.out_of_range ∧
      liveliness_callback ⟨0, 1, -1, 1⟩ [] 0 ⟨true, true⟩
        = CallbackOutcome.crashed_out_of_range := by
  exact ⟨rfl, rfl⟩

/-- C7: the claim says that with `publish_failures` disabled the notify
path is safe and emits nothing.  `publish_failure` calls
`failure_pub_->publish` unconditionally, and `failure_pub_` is null when
`--publish` was absent: on a diagnosis that reaches the publish call (the
snapshot must contain checkpoint id -1), the callback dereferences the
null publisher.  With an allocated sink, emission happens exactly in the
activated state. -/
theorem C7_null_sink_dereferenced :
    publish_failure ⟨false, false⟩ ⟨-1, 1, 0⟩ 9 = PublishOutcome.null_deref ∧
      liveliness_callback ⟨1, 0, -1, 1⟩ [⟨-1, 0, 0⟩, ⟨-1, 1, 0⟩] 9 ⟨false, false⟩
        = CallbackOutcome.publish PublishOutcome.null_deref ∧
      publish_failure ⟨true, true⟩ ⟨-1, 1, 0⟩ 9 = PublishOutcome.emitted (-1) 9 ∧
      publish_failure ⟨true, false⟩ ⟨-1, 1, 0⟩ 9 = PublishOutcome.suppressed := by
  exact ⟨rfl, rfl, rfl, rfl⟩

/-- C8 counterexample: the claim says a missing or non-numeric lease makes
the process print usage and exit with a non-zero-equivalent status.  With a
missing lease the constructor exits with status 0 (zero, not non-zero); with
a non-numeric lease `std::stoul` throws and no usage message is printed. -/
theorem C8_counterexample :
    simple_watchdog_ctor ["simple_watchdog"] = StartupOutcome.exited true 0 ∧
      simple_watchdog_ctor ["simple_watchdog", "abc"]
        = StartupOutcome.uncaught := by
  exact ⟨rfl, rfl⟩

/-- C8 (amended): with fewer than two arguments (missing lease) or `-h`
present, the constructor prints usage and exits with status 0; with a
present but non-numeric lease it terminates via an uncaught exception
without printing usage; with a well-formed argument list it constructs the
watchdog, parsing the lease and the `--activate` / `--publish` flags. -/
theorem C8_startup_behaviour (args : List String) :
    ((args.length < 2 ∨ args.contains "-h") →
      simple_watchdog_ctor args = StartupOutcome.exited true 0) ∧
    (2 ≤ args.length → args.contains "-h" = false →
      stoul (args.getD 1 "") = none →
      simple_watchdog_ctor args = StartupOutcome.uncaught) ∧
    (∀ n : Nat, 2 ≤ args.length → args.contains "-h" = false →
      stoul (args.getD 1 "") = some n →
      simple_watchdog_ctor args
        = StartupOutcome.constructed n (args.contains "--activate")
            (args.contains "--publish")) := by
  refine ⟨?_, ?_, ?_⟩
  · intro h
    unfold simple_watchdog_ctor
    rw [if_pos h]
  · intro h1 h2 h3
    have hcond : ¬(args.length < 2 ∨ (args.contains "-h" : Bool)) := by
      rintro (hx | hx)
      · omega
      · rw [h2] at hx
        exact Bool.noConfusion hx
    unfold simple_watchdog_ctor
    rw [if_neg hcond, h3]
  · intro n h1 h2 h3
    have hcond : ¬(args.length < 2 ∨ (args.contains "-h" : Bool)) := by
      rintro (hx | hx)
      · omega
      · rw [h2] at hx
        exact Bool.noConfusion hx
    unfold simple_watchdog_ctor
    rw [if_neg hcond, h3]

theorem C8_startup_behaviour_witness :
    simple_watchdog_ctor ["simple_watchdog"] = StartupOutcome.exited true 0 ∧
      simple_watchdog_ctor ["simple_watchdog", "bad"] = StartupOutcome.uncaught ∧
      simple_watchdog_ctor ["simple_watchdog", "500", "--publish"]
        = StartupOutcome.constructed 500 false true :=
  ⟨(C8_startup_behaviour ["simple_watchdog"]).1 (by simp),
    (C8_startup_behaviour ["simple_watchdog", "bad"]).2.1 (by simp) (by decide) rfl,
    (C8_startup_behaviour ["simple_watchdog", "500", "--publish"]).2.2 500
      (by simp) (by decide) rfl⟩

/-- C9: the diagnosis is deterministic — it is a function of the cache
snapshot and of `now` alone: two watchdog nodes whose caches hold the same
snapshot produce the same `check_messages_in_cache` result at the same
time, whatever their other configuration. -/
theorem C9_diagnosis_deterministic (w₁ w₂ : SimpleWatchdogNode) (now : Int)
    (h : w₁.cache = w₂.cache) : node_check w₁ now = node_check w₂ now := by
  simp [node_check, h]

theorem C9_diagnosis_deterministic_witness :
    node_check ⟨100, false, false, "heartbeat", [⟨1, 0, 0⟩, ⟨1, 1, 0⟩]⟩ 5
      = node_check ⟨200, true, true, "hb", [⟨1, 0, 0⟩, ⟨1, 1, 0⟩]⟩ 5 :=
  C9_diagnosis_deterministic
    ⟨100, false, false, "heartbeat", [⟨1, 0, 0⟩, ⟨1, 1, 0⟩]⟩
    ⟨200, true, true, "hb", [⟨1, 0, 0⟩, ⟨1, 1, 0⟩]⟩ 5 rfl

/-- C10: the liveliness callback runs the diagnosis-and-notify path exactly
when `alive_count_change ≤ 0`; an event with change 0 still triggers
diagnosis and can emit a failure notification, while an event with change
1 is dropped without diagnosis. -/
theorem C10_callback_gate :
    (∀ (e : QOSLivelinessChangedInfo) (snap : List Heartbeat) (now : Int)
        (sink : SinkState),
      liveliness_callback e snap now sink ≠ CallbackOutcome.dropped ↔
        e.alive_count_change ≤ 0) ∧
    liveliness_callback ⟨1, 0, 0, 0⟩ [⟨-1, 0, 0⟩, ⟨-1, 1, 0⟩] 9 ⟨true, true⟩
      = CallbackOutcome.publish (PublishOutcome.emitted (-1) 9) ∧
    liveliness_callback ⟨2, 0, 1, 0⟩ [⟨-1, 0, 0⟩, ⟨-1, 1, 0⟩] 9 ⟨true, true⟩
      = CallbackOutcome.dropped := by
  refine ⟨?_, rfl, rfl⟩
  intro e snap now sink
  unfold liveliness_callback
  by_cases h : e.alive_count_change ≤ 0
  · simp only [if_pos h]
    constructor
    · intro _
      exact h
    · intro _
      cases hc : check_messages_in_cache snap now with
      | ub => simp
      | out_of_range => simp
      | ok found lost => cases found <;> simp
  · simp [if_neg h, h]

end SwWatchdog
